import Mathlib

/-!
# Chat widget (`Chatbots_FAQs/static/chat.js`)

A shallow embedding of the `DOMContentLoaded` handler of `chat.js` and of the
two closures it declares, `addMessage` and `sendMessage`.

The browser objects the script touches are modelled as plain data:

* a DOM node is a text node or an element with a class list and child nodes;
* the message container is an element of the body: besides its child nodes it
  has a scroll offset, a client height and the two style facts the `scrollTop`
  setter depends on, whether it is a scroll container and whether its scroll
  behaviour is smooth; heights are in whole CSS pixels;
* the text input has a value and attributes;
* the network is a log of the requests handed to `fetch`, each with the
  reactions registered on the promise `fetch` returned.

A string is a sequence of code points. The white space that `trim` strips
lies in the Basic Multilingual Plane, so trimming code points and trimming
UTF-16 code units agree.

The script declares `sendMessage` but binds it to no event; the claims are
about what a call of it does.

Platform operations (`String.prototype.trim`, `classList.add`, the
`textContent` setter and getter, `appendChild`, the `scrollTop` setter,
`getAttribute`, `fetch`) follow ECMAScript, DOM and CSSOM View.
-/

namespace ChatWidget

/-! ## Platform: strings -/

/-- White space and line terminators of ECMAScript, the code points that
`String.prototype.trim` strips: TAB, LF, VT, FF, CR, SP, NBSP, U+1680,
U+2000..U+200A, U+2028, U+2029, U+202F, U+205F, U+3000 and U+FEFF. -/
def isWhiteSpace (c : Char) : Bool :=
  let n := c.toNat
  n == 0x09 || n == 0x0A || n == 0x0B || n == 0x0C || n == 0x0D || n == 0x20 ||
  n == 0xA0 || n == 0x1680 || (0x2000 ≤ n && n ≤ 0x200A) || n == 0x2028 ||
  n == 0x2029 || n == 0x202F || n == 0x205F || n == 0x3000 || n == 0xFEFF

/-- The characters of a string with leading and trailing white space removed. -/
def trimChars (cs : List Char) : List Char :=
  ((cs.dropWhile isWhiteSpace).reverse.dropWhile isWhiteSpace).reverse

/-- `String.prototype.trim`. -/
def trim (s : String) : String :=
  ⟨trimChars s.data⟩

/-- ASCII white space of the DOM standard: TAB, LF, FF, CR and SP. -/
def isAsciiWhiteSpace (c : Char) : Bool :=
  let n := c.toNat
  n == 0x09 || n == 0x0A || n == 0x0C || n == 0x0D || n == 0x20

/-! ## Platform: DOM -/

/-- Exceptions the script can raise. -/
inductive JsError where
  | typeError
  | syntaxError
  | invalidCharacterError
  deriving DecidableEq, Repr

/-- A DOM node: a text node or an element. -/
inductive Node where
  | text (data : String)
  | element (tagName : String) (classList : List String) (childNodes : List Node)
  deriving Repr

namespace Node

/-- `document.createElement(tag)`: a fresh element with no class and no child. -/
def createElement (tag : String) : Node :=
  .element tag [] []

/-- `el.classList.add(token)`: a `SyntaxError` for the empty token, an
`InvalidCharacterError` for a token with ASCII white space; otherwise the token
is added unless it is already there. A text node has no `classList`. -/
def classListAdd (el : Node) (token : String) : Except JsError Node :=
  match el with
  | .text _ => .error .typeError
  | .element tag cls kids =>
    if token = "" then .error .syntaxError
    else if token.data.any isAsciiWhiteSpace then .error .invalidCharacterError
    else .ok (.element tag (if token ∈ cls then cls else cls ++ [token]) kids)

/-- The `textContent` setter: the children are replaced by one text node
holding the string, or by nothing when the string is empty. The string is
never parsed. -/
def setTextContent (el : Node) (s : String) : Node :=
  match el with
  | .text _ => .text s
  | .element tag cls _ => .element tag cls (if s = "" then [] else [.text s])

mutual
/-- The `textContent` getter: the data of a text node, the concatenation of
the text content of the children of an element. -/
def textContent : Node → String
  | .text d => d
  | .element _ _ kids => textContentList kids
/-- Concatenated text content of a list of nodes. -/
def textContentList : List Node → String
  | [] => ""
  | n :: ns => textContent n ++ textContentList ns
end

/-- The `children` getter: the child nodes that are elements. -/
def children : Node → List Node
  | .text _ => []
  | .element _ _ kids => kids.filter fun k =>
      match k with
      | .text _ => false
      | .element _ _ _ => true

/-- The `classList` of a node (empty for a text node). -/
def classes : Node → List String
  | .text _ => []
  | .element _ cls _ => cls

/-- The `childNodes` of a node. -/
def childNodes : Node → List Node
  | .text _ => []
  | .element _ _ kids => kids

/-- Whether the node is an element. -/
def isElement : Node → Bool
  | .text _ => false
  | .element _ _ _ => true

end Node

/-- The message container, an element of the body (not the root or the body
element itself). Only what the script reads or writes, and what the platform
consults when it does, is kept: the child nodes, the scroll offset, the height
of the visible box, whether the element has a scrolling box (it is rendered and
its `overflow` is not `visible`, the default of a `div`), and whether its
computed `scroll-behavior` is `smooth`. Heights are whole CSS pixels. -/
structure Container where
  childNodes : List Node
  scrollTop : Nat
  clientHeight : Nat
  scrollContainer : Bool
  smoothScroll : Bool

/-- The text input: its current value and its content attributes. -/
structure Input where
  value : String
  attributes : List (String × String)

/-- The page as the script sees it: for each of the three identifiers it looks
up, the element that carries it, if any. The three elements are distinct and
none is nested in another. -/
structure Page where
  chatMessages : Option Container
  userInput : Option Input
  sendBtn : Option Node

/-- `parent.appendChild(node)`: the node becomes the last child. -/
def Container.appendChild (c : Container) (n : Node) : Container :=
  { c with childNodes := c.childNodes ++ [n] }

/-- The `scrollHeight` getter: the height of the scrolling area, which is the
height of the laid out content but never less than the visible box. The layout
engine is a parameter: it gives the content height of a list of child nodes. -/
def Container.scrollHeight (layout : List Node → Nat) (c : Container) : Nat :=
  max (layout c.childNodes) c.clientHeight

/-- The `scrollTop` setter, as the offset reads when the assignment returns.
The steps end at once, with nothing scrolled, when the element has no
scrolling box or its content does not overflow. Otherwise the element is
scrolled with behaviour `auto`: under `scroll-behavior: smooth` an animation
only starts and the offset has not moved yet; else the offset becomes the
requested one, clamped to the scrollable range, whose end is
`scrollHeight - clientHeight`. -/
def Container.setScrollTop (layout : List Node → Nat) (c : Container) (y : Nat) : Container :=
  if c.scrollContainer = false then c
  else if c.scrollHeight layout ≤ c.clientHeight then c
  else if c.smoothScroll = true then c
  else { c with scrollTop := min y (c.scrollHeight layout - c.clientHeight) }

/-- `el.getAttribute(name)`: the value of the first attribute of that name, or
`null`. -/
def Input.getAttribute (i : Input) (name : String) : Option String :=
  (i.attributes.find? fun a => a.1 == name).map fun a => a.2

/-! ## Platform: network -/

/-- The response a request settles with: whether it was fulfilled, its status
and the fields of its JSON body. -/
structure Response where
  fulfilled : Bool
  status : Nat
  json : List (String × String)

/-- A request handed to `fetch`, with the reactions registered on the promise
that `fetch` returned for it. A reaction runs against the page when the
response arrives. -/
structure Request where
  url : String
  method : String
  headers : List (String × String)
  body : Option String
  reactions : List (Response → Page → Page)

/-! ## The script -/

/-- The state of the widget once the `DOMContentLoaded` handler has run: the
page, the conversation identifier bound at load time, and the requests issued
so far, oldest first. -/
structure Widget where
  page : Page
  conversationId : Option String
  requests : List Request

/-- The body of the `DOMContentLoaded` handler up to the function
declarations: three `getElementById` lookups (each gives the element or
`null`) and `userInput.getAttribute('data-conversation-id')`, which raises a
`TypeError` when `userInput` is `null`. Nothing is written to the page. -/
def domContentLoaded (p : Page) : Except JsError Widget :=
  match p.userInput with
  | none => .error .typeError
  | some input =>
    .ok { page := p
          conversationId := input.getAttribute "data-conversation-id"
          requests := [] }

/-- The function `addMessage(message, type)` of the script, on the page. -/
def addMessage (layout : List Node → Nat) (p : Page) (message type : String) :
    Except JsError Page := do
  let messageEl := Node.createElement "div"
  let messageEl ← messageEl.classListAdd (type ++ "-message")
  let messageEl := messageEl.setTextContent message
  match p.chatMessages with
  | none => .error .typeError
  | some chatMessages =>
    let chatMessages := chatMessages.appendChild messageEl
    -- Auto-scroll to bottom
    let chatMessages := chatMessages.setScrollTop layout (chatMessages.scrollHeight layout)
    .ok { p with chatMessages := some chatMessages }

/-- The call `fetch(url, init)` as a statement: the request is issued and the
promise is dropped, so no reaction is registered on it. -/
def fetch (w : Widget) (url method : String) (headers : List (String × String))
    (body : Option String) : Widget :=
  { w with requests := w.requests ++
      [{ url := url, method := method, headers := headers, body := body, reactions := [] }] }

/-- The function `sendMessage()` of the script. -/
def sendMessage (layout : List Node → Nat) (w : Widget) : Except JsError Widget :=
  match w.page.userInput with
  | none => .error .typeError
  | some userInput =>
    let message := trim userInput.value
    if message = "" then .ok w
    else do
      -- Add user message to chat
      let p ← addMessage layout w.page message "user"
      -- Clear input
      let p := { p with userInput := p.userInput.map fun i => { i with value := "" } }
      -- Send message to backend
      .ok (fetch { w with page := p } "/chat" "POST" [("Content-Type", "application")] none)

/-- The response to the request at position `i` of the log arrives: the
reactions registered on its promise run, in order, against the page. -/
def settle (w : Widget) (i : Nat) (r : Response) : Widget :=
  match w.requests.get? i with
  | none => w
  | some req => { w with page := req.reactions.foldl (fun p f => f r p) w.page }

/-- The user types `v` into the text input. -/
def typeInput (w : Widget) (v : String) : Widget :=
  { w with page := { w.page with userInput := w.page.userInput.map fun i => { i with value := v } } }

/-- The user types each value in turn and `sendMessage` runs after each. -/
def sendAll (layout : List Node → Nat) : Widget → List String → Except JsError Widget
  | w, [] => .ok w
  | w, v :: vs => do
    let w ← sendMessage layout (typeInput w v)
    sendAll layout w vs

/-- The element `addMessage` builds for a message of a sender type. -/
def messageElement (message type : String) : Node :=
  .element "div" [type ++ "-message"] (if message = "" then [] else [.text message])

/-- The container after `addMessage` appended a node and scrolled: the two
statements `chatMessages.appendChild(messageEl)` and
`chatMessages.scrollTop = chatMessages.scrollHeight` in sequence. -/
def Container.appendAndScroll (layout : List Node → Nat) (c : Container) (n : Node) :
    Container :=
  (c.appendChild n).setScrollTop layout ((c.appendChild n).scrollHeight layout)

/-! ## Sample data -/

/-- A layout engine that gives every child node a height of 100. -/
def sampleLayout : List Node → Nat :=
  fun ns => 100 * ns.length

/-- A text input holding `" Hello "`, bound to conversation `c1`. -/
def sampleInput : Input :=
  { value := " Hello ", attributes := [("data-conversation-id", "c1")] }

/-- A scroll container of client height 100, with instant scroll behaviour,
that already shows two messages. -/
def sampleContainer : Container :=
  { childNodes := [messageElement "Hi" "user", messageElement "Bye" "user"]
    scrollTop := 100
    clientHeight := 100
    scrollContainer := true
    smoothScroll := false }

/-- The sample container with the default `overflow: visible`: it has no
scrolling box and its scroll offset is 0. -/
def visibleContainer : Container :=
  { sampleContainer with scrollTop := 0, scrollContainer := false }

/-- A scroll container of client height 100 that shows no message yet. -/
def emptyContainer : Container :=
  { childNodes := [], scrollTop := 0, clientHeight := 100, scrollContainer := true,
    smoothScroll := false }

/-- A page with the container, the text input and a send button. -/
def samplePage : Page :=
  { chatMessages := some sampleContainer
    userInput := some sampleInput
    sendBtn := some (.element "button" [] [.text "Send"]) }

/-- The widget on the sample page right after load. -/
def sampleWidget : Widget :=
  { page := samplePage, conversationId := some "c1", requests := [] }

/-- The sample widget with a container that shows no message yet. -/
def emptyWidget : Widget :=
  { page := { samplePage with chatMessages := some emptyContainer }
    conversationId := some "c1"
    requests := [] }

/-- A fulfilled response with status 200 and the JSON body `reply: "Hi there"`. -/
def sampleReply : Response :=
  { fulfilled := true, status := 200, json := [("reply", "Hi there")] }

/-- A page with the container and the send button but no text input. -/
def pageWithoutInput : Page :=
  { samplePage with userInput := none }

/-- A page with the text input but neither container nor send button. -/
def pageInputOnly : Page :=
  { chatMessages := none, userInput := some sampleInput, sendBtn := none }

/-! ## Lemmas on the platform operations -/

theorem trimChars_eq_nil_of_all (cs : List Char) (h : cs.all isWhiteSpace = true) :
    trimChars cs = [] := by
  have h1 : cs.dropWhile isWhiteSpace = [] := by
    rw [List.dropWhile_eq_nil_iff]
    simpa using h
  simp [trimChars, h1]

theorem trim_eq_empty_of_all (v : String) (h : v.data.all isWhiteSpace = true) :
    trim v = "" := by
  unfold trim
  rw [trimChars_eq_nil_of_all _ h]

theorem token_ne_empty (type : String) : type ++ "-message" ≠ "" := by
  intro h
  have h2 := congrArg String.length h
  simp only [String.length_append] at h2
  have h3 : "-message".length = 8 := by decide
  rw [h3] at h2
  exact absurd h2 (by simp)

theorem token_no_space (type : String) (h : type.data.any isAsciiWhiteSpace = false) :
    (type ++ "-message").data.any isAsciiWhiteSpace = false := by
  have h2 : "-message".data.any isAsciiWhiteSpace = false := by decide
  rw [String.data_append, List.any_append, h, h2]
  rfl

theorem textContent_messageElement (message type : String) :
    (messageElement message type).textContent = message := by
  unfold messageElement
  by_cases h : message = ""
  · simp [h, Node.textContent, Node.textContentList]
  · simp [h, Node.textContent, Node.textContentList]

theorem children_messageElement (message type : String) :
    (messageElement message type).children = [] := by
  unfold messageElement
  by_cases h : message = "" <;> simp [h, Node.children]

theorem classListAdd_fresh (type : String) (ht : type.data.any isAsciiWhiteSpace = false) :
    (Node.createElement "div").classListAdd (type ++ "-message") =
      .ok (.element "div" [type ++ "-message"] []) := by
  have h1 := token_ne_empty type
  have h2 := token_no_space type ht
  have h3 : ¬ ((type ++ "-message").data.any isAsciiWhiteSpace = true) := by
    rw [h2]; exact Bool.false_ne_true
  show (if type ++ "-message" = "" then Except.error JsError.syntaxError
    else if (type ++ "-message").data.any isAsciiWhiteSpace = true then
      Except.error JsError.invalidCharacterError
    else Except.ok (Node.element "div"
      (if type ++ "-message" ∈ ([] : List String) then [] else [] ++ [type ++ "-message"]) []))
    = _
  rw [if_neg h1, if_neg h3]
  simp

/-- What `addMessage` does when the container exists and the sender type has
no ASCII white space. -/
theorem addMessage_ok (layout : List Node → Nat) (p : Page) (c : Container)
    (message type : String) (hc : p.chatMessages = some c)
    (ht : type.data.any isAsciiWhiteSpace = false) :
    addMessage layout p message type =
      .ok { p with
        chatMessages := some (c.appendAndScroll layout (messageElement message type)) } := by
  have h3 := classListAdd_fresh type ht
  unfold addMessage
  simp only [h3]
  simp [Node.setTextContent, hc, messageElement, Container.appendAndScroll, bind, Except.bind]

theorem user_no_space : "user".data.any isAsciiWhiteSpace = false := by decide

/-- What `sendMessage` does on a non-blank input when the container exists. -/
theorem sendMessage_nonblank (layout : List Node → Nat) (w : Widget) (c : Container)
    (i : Input) (hc : w.page.chatMessages = some c) (hi : w.page.userInput = some i)
    (hne : trim i.value ≠ "") :
    sendMessage layout w = .ok
      { page :=
          { chatMessages := some (c.appendAndScroll layout (messageElement (trim i.value) "user"))
            userInput := some { i with value := "" }
            sendBtn := w.page.sendBtn }
        conversationId := w.conversationId
        requests := w.requests ++
          [{ url := "/chat", method := "POST", headers := [("Content-Type", "application")],
             body := none, reactions := [] }] } := by
  have h := addMessage_ok layout w.page c (trim i.value) "user" hc user_no_space
  simp [sendMessage, hi, hne, h, bind, Except.bind, fetch]

/-- What `sendMessage` does on a blank input. -/
theorem sendMessage_blank (layout : List Node → Nat) (w : Widget) (i : Input)
    (hi : w.page.userInput = some i) (he : trim i.value = "") :
    sendMessage layout w = .ok w := by
  simp [sendMessage, hi, he]

theorem classes_messageElement (message type : String) :
    (messageElement message type).classes = [type ++ "-message"] := by
  simp [messageElement, Node.classes]

theorem isElement_messageElement (message type : String) :
    (messageElement message type).isElement = true := by
  simp [messageElement, Node.isElement]

theorem childNodes_appendAndScroll (layout : List Node → Nat) (c : Container) (n : Node) :
    (c.appendAndScroll layout n).childNodes = c.childNodes ++ [n] := by
  unfold Container.appendAndScroll Container.setScrollTop
  split_ifs <;> rfl

/-- The assignment to `scrollTop` leaves the offset where it was when the
container has no scrolling box, when its content does not overflow, or when
its scroll behaviour is smooth. -/
theorem scrollTop_appendAndScroll_unchanged (layout : List Node → Nat) (c : Container)
    (n : Node)
    (h : c.scrollContainer = false ∨ layout (c.childNodes ++ [n]) ≤ c.clientHeight ∨
      c.smoothScroll = true) :
    (c.appendAndScroll layout n).scrollTop = c.scrollTop := by
  unfold Container.appendAndScroll Container.setScrollTop
  split_ifs with h1 h2 h3
  · rfl
  · rfl
  · rfl
  · exfalso
    rcases h with h | h | h
    · exact h1 h
    · apply h2
      simp only [Container.scrollHeight, Container.appendChild]
      omega
    · exact h3 h

/-- On a container with the default `overflow: visible` the assignment scrolls
nothing: after `addMessage` the scroll height is 300 and the offset is still 0. -/
theorem addMessage_visible_container_offset :
    ∃ p' c', addMessage sampleLayout { samplePage with chatMessages := some visibleContainer }
        "Hello" "user" = .ok p' ∧
      p'.chatMessages = some c' ∧ c'.scrollHeight sampleLayout = 300 ∧ c'.scrollTop = 0 :=
  ⟨_, _, addMessage_ok sampleLayout _ visibleContainer "Hello" "user" rfl (by decide), rfl,
    by decide, by decide⟩

/-- A run of sends on a widget whose container and input exist: every send
succeeds, and the container ends with its former children followed by one
user message per non-blank value, in the order of the sends. -/
theorem sendAll_children (layout : List Node → Nat) (vs : List String) :
    ∀ (w : Widget) (c : Container) (i : Input),
      w.page.chatMessages = some c → w.page.userInput = some i →
      ∃ w' c' i', sendAll layout w vs = .ok w' ∧ w'.page.chatMessages = some c' ∧
        w'.page.userInput = some i' ∧
        c'.childNodes = c.childNodes ++
          ((vs.map trim).filter fun m => m ≠ "").map fun m => messageElement m "user" := by
  induction vs with
  | nil =>
    intro w c i hc hi
    exact ⟨w, c, i, rfl, hc, hi, by simp⟩
  | cons v vs ih =>
    intro w c i hc hi
    have hc1 : (typeInput w v).page.chatMessages = some c := by simp [typeInput, hc]
    have hi1 : (typeInput w v).page.userInput = some { i with value := v } := by
      simp [typeInput, hi]
    by_cases hv : trim v = ""
    · have hs := sendMessage_blank layout (typeInput w v) _ hi1 hv
      obtain ⟨w', c', i', h1, h2, h3, h4⟩ := ih (typeInput w v) c _ hc1 hi1
      refine ⟨w', c', i', ?_, h2, h3, ?_⟩
      · simp [sendAll, hs, h1, bind, Except.bind]
      · simp [h4, hv]
    · obtain ⟨w1, hs, hc2, hi2⟩ : ∃ w1, sendMessage layout (typeInput w v) = .ok w1 ∧
          w1.page.chatMessages =
            some (c.appendAndScroll layout (messageElement (trim v) "user")) ∧
          w1.page.userInput = some { value := "", attributes := i.attributes } :=
        ⟨_, sendMessage_nonblank layout (typeInput w v) c _ hc1 hi1 hv, rfl, rfl⟩
      obtain ⟨w', c', i', h1, h2, h3, h4⟩ := ih w1 _ _ hc2 hi2
      refine ⟨w', c', i', ?_, h2, h3, ?_⟩
      · simp only [sendAll, hs, bind, Except.bind]
        exact h1
      · rw [h4, childNodes_appendAndScroll]
        simp [hv]

/-! ## The claims -/

/-- C1. On an input whose trimmed value is not empty, `sendMessage` appends
exactly one element to the message container; the element has the class
`user-message` and its text content is the trimmed value; afterwards the value
of the input is the empty string. -/
theorem sendMessage_appends_user_message (layout : List Node → Nat) (w : Widget)
    (c : Container) (i : Input) (hc : w.page.chatMessages = some c)
    (hi : w.page.userInput = some i) (hne : trim i.value ≠ "") :
    ∃ w' c' i' el, sendMessage layout w = .ok w' ∧ w'.page.chatMessages = some c' ∧
      w'.page.userInput = some i' ∧ c'.childNodes = c.childNodes ++ [el] ∧
      el.isElement = true ∧ el.classes = ["user-message"] ∧
      el.textContent = trim i.value ∧ i'.value = "" := by
  refine ⟨_, _, _, messageElement (trim i.value) "user",
    sendMessage_nonblank layout w c i hc hi hne, rfl, rfl, ?_, ?_, ?_, ?_, rfl⟩
  · exact childNodes_appendAndScroll layout c _
  · exact isElement_messageElement _ _
  · rw [classes_messageElement]; decide
  · exact textContent_messageElement _ _

/-- Witness of C1 on the sample widget, whose input holds `" Hello "`. -/
theorem sendMessage_appends_user_message_witness :
    trim sampleInput.value = "Hello" ∧
    ∃ w' c' i' el, sendMessage sampleLayout sampleWidget = .ok w' ∧
      w'.page.chatMessages = some c' ∧ w'.page.userInput = some i' ∧
      c'.childNodes = sampleContainer.childNodes ++ [el] ∧
      el.isElement = true ∧ el.classes = ["user-message"] ∧
      el.textContent = trim sampleInput.value ∧ i'.value = "" :=
  ⟨by decide, sendMessage_appends_user_message sampleLayout sampleWidget sampleContainer
    sampleInput rfl rfl (by decide)⟩

/-- C2. On an input value that is empty or holds only white space,
`sendMessage` is a no-op: it returns with the widget as it was, so the children
of the container, the untrimmed value of the input and the log of requests are
unchanged. -/
theorem sendMessage_blank_noop (layout : List Node → Nat) (w : Widget) (i : Input)
    (hi : w.page.userInput = some i) (hb : i.value.data.all isWhiteSpace = true) :
    ∃ w', sendMessage layout w = .ok w' ∧ w'.page.chatMessages = w.page.chatMessages ∧
      w'.page.userInput = some i ∧ w'.requests = w.requests ∧ w' = w :=
  ⟨w, sendMessage_blank layout w i hi (trim_eq_empty_of_all _ hb), rfl, hi, rfl, rfl⟩

/-- Witness of C2 on the sample widget after three spaces were typed. -/
theorem sendMessage_blank_noop_witness :
    ∃ w', sendMessage sampleLayout (typeInput sampleWidget "   ") = .ok w' ∧
      w'.page.chatMessages = (typeInput sampleWidget "   ").page.chatMessages ∧
      w'.page.userInput = some { sampleInput with value := "   " } ∧
      w'.requests = (typeInput sampleWidget "   ").requests ∧
      w' = typeInput sampleWidget "   " :=
  sendMessage_blank_noop sampleLayout (typeInput sampleWidget "   ")
    { sampleInput with value := "   " } rfl (by decide)

/-- C3. For every message string, `<script>` included, `addMessage` appends an
element whose text content is exactly that string and which has no child
element: the string is stored as text and is not parsed. -/
theorem addMessage_text_is_literal (layout : List Node → Nat) (p : Page) (c : Container)
    (message type : String) (hc : p.chatMessages = some c)
    (ht : type.data.any isAsciiWhiteSpace = false) :
    ∃ p' c' el, addMessage layout p message type = .ok p' ∧ p'.chatMessages = some c' ∧
      c'.childNodes = c.childNodes ++ [el] ∧ el.isElement = true ∧
      el.textContent = message ∧ el.children = [] ∧
      el.childNodes = (if message = "" then [] else [.text message]) := by
  refine ⟨_, _, messageElement message type, addMessage_ok layout p c message type hc ht,
    rfl, childNodes_appendAndScroll layout c _, isElement_messageElement _ _,
    textContent_messageElement _ _, children_messageElement _ _, ?_⟩
  simp [messageElement, Node.childNodes]

/-- Witness of C3: the message `<script>alert(1)</script>` on the sample page. -/
theorem addMessage_text_is_literal_witness :
    ∃ p' c' el, addMessage sampleLayout samplePage "<script>alert(1)</script>" "bot" = .ok p' ∧
      p'.chatMessages = some c' ∧
      c'.childNodes = sampleContainer.childNodes ++ [el] ∧ el.isElement = true ∧
      el.textContent = "<script>alert(1)</script>" ∧ el.children = [] ∧
      el.childNodes = (if "<script>alert(1)</script>" = "" then []
        else [.text "<script>alert(1)</script>"]) :=
  addMessage_text_is_literal sampleLayout samplePage sampleContainer
    "<script>alert(1)</script>" "bot" rfl (by decide)

/-- C4. A run of `sendMessage` calls on the values `vs`, starting from an empty
container, leaves in the container, in order, one user message for each value
whose trimmed form is not empty, and the text of these messages is the list of
those trimmed forms: nothing is reordered and nothing is deduplicated. -/
theorem sendAll_keeps_send_order (layout : List Node → Nat) (w : Widget) (c : Container)
    (i : Input) (vs : List String) (hc : w.page.chatMessages = some c)
    (hi : w.page.userInput = some i) (hempty : c.childNodes = []) :
    ∃ w' c', sendAll layout w vs = .ok w' ∧ w'.page.chatMessages = some c' ∧
      c'.childNodes =
        (((vs.map trim).filter fun m => m ≠ "").map fun m => messageElement m "user") ∧
      c'.childNodes.map Node.textContent = ((vs.map trim).filter fun m => m ≠ "") := by
  obtain ⟨w', c', i', h1, h2, _, h4⟩ := sendAll_children layout vs w c i hc hi
  rw [hempty, List.nil_append] at h4
  refine ⟨w', c', h1, h2, h4, ?_⟩
  rw [h4, List.map_map]
  have hid : (Node.textContent ∘ fun m => messageElement m "user") = id := by
    funext m
    exact textContent_messageElement m "user"
  rw [hid, List.map_id]

/-- Witness of C4: the sends `"a"`, `"  "`, `" a"`, `"b "` from an empty
container give the messages `a`, `a`, `b`. -/
theorem sendAll_keeps_send_order_witness :
    (((["a", "  ", " a", "b "].map trim).filter fun m => m ≠ "") = ["a", "a", "b"]) ∧
    ∃ w' c', sendAll sampleLayout emptyWidget ["a", "  ", " a", "b "] = .ok w' ∧
      w'.page.chatMessages = some c' ∧
      c'.childNodes =
        (((["a", "  ", " a", "b "].map trim).filter fun m => m ≠ "").map
          fun m => messageElement m "user") ∧
      c'.childNodes.map Node.textContent =
        ((["a", "  ", " a", "b "].map trim).filter fun m => m ≠ "") :=
  ⟨by decide, sendAll_keeps_send_order sampleLayout emptyWidget
    emptyContainer sampleInput
    ["a", "  ", " a", "b "] rfl rfl rfl⟩

/-- C5. On an input whose trimmed value is not empty, `sendMessage` issues
exactly one request, with method `POST` and path `/chat`, whatever the message
and the conversation identifier are. -/
theorem sendMessage_one_post (layout : List Node → Nat) (w : Widget) (c : Container)
    (i : Input) (hc : w.page.chatMessages = some c) (hi : w.page.userInput = some i)
    (hne : trim i.value ≠ "") :
    ∃ w' r, sendMessage layout w = .ok w' ∧ w'.requests = w.requests ++ [r] ∧
      r.method = "POST" ∧ r.url = "/chat" :=
  ⟨_, _, sendMessage_nonblank layout w c i hc hi hne, rfl, rfl, rfl⟩

/-- Witness of C5 on the sample widget. -/
theorem sendMessage_one_post_witness :
    ∃ w' r, sendMessage sampleLayout sampleWidget = .ok w' ∧
      w'.requests = sampleWidget.requests ++ [r] ∧ r.method = "POST" ∧ r.url = "/chat" :=
  sendMessage_one_post sampleLayout sampleWidget sampleContainer sampleInput rfl rfl
    (by decide)

/-- C6. The request that `sendMessage` issues for the input `" Hello "` of the
sample widget, bound to conversation `c1`, has no body: neither the message
nor the conversation identifier is sent. -/
theorem sendMessage_request_has_no_body :
    sampleWidget.conversationId = some "c1" ∧
    ∃ w', sendMessage sampleLayout sampleWidget = .ok w' ∧
      w'.requests.map Request.body = [none] :=
  ⟨rfl, _, sendMessage_nonblank sampleLayout sampleWidget sampleContainer sampleInput rfl rfl
    (by decide), rfl⟩

/-- C7. The request that `sendMessage` issues on the sample widget has the
single header `Content-Type: application`, and that value is not
`application/json`. -/
theorem sendMessage_content_type_value :
    ∃ w', sendMessage sampleLayout sampleWidget = .ok w' ∧
      w'.requests.map Request.headers = [[("Content-Type", "application")]] ∧
      "application" ≠ "application/json" :=
  ⟨_, sendMessage_nonblank sampleLayout sampleWidget sampleContainer sampleInput rfl rfl
    (by decide), rfl, by decide⟩

/-- C8, counterexample. On the sample page, whose container is a scroll
container with instant scroll behaviour, client height 100 and two messages of
height 100 each, `addMessage` leaves a scroll height of 300 and a scroll offset
of 200: the offset is not the scroll height. -/
theorem addMessage_scrollTop_ne_scrollHeight :
    ∃ p' c', addMessage sampleLayout samplePage "Hello" "user" = .ok p' ∧
      p'.chatMessages = some c' ∧ c'.scrollHeight sampleLayout = 300 ∧
      c'.scrollTop = 200 ∧ c'.scrollTop ≠ c'.scrollHeight sampleLayout :=
  ⟨_, _, addMessage_ok sampleLayout samplePage sampleContainer "Hello" "user" rfl
    (by decide), rfl, by decide, by decide, by decide⟩

/-- C8, amended. The container is a scroll container with instant scroll
behaviour and its content, with the new message, is higher than its visible
box. Then after `addMessage` appends a message of either sender type and with
any text, the scroll offset of the container is the end of its scrollable
range, the scroll height measured after the insertion minus the client height;
it equals that scroll height exactly when the client height is 0. -/
theorem addMessage_scrolls_to_end (layout : List Node → Nat) (p : Page) (c : Container)
    (message type : String) (hc : p.chatMessages = some c)
    (ht : type = "user" ∨ type = "bot") (hbox : c.scrollContainer = true)
    (hinstant : c.smoothScroll = false)
    (hover : c.clientHeight < layout (c.childNodes ++ [messageElement message type])) :
    ∃ p' c', addMessage layout p message type = .ok p' ∧ p'.chatMessages = some c' ∧
      c'.childNodes = c.childNodes ++ [messageElement message type] ∧
      c'.clientHeight = c.clientHeight ∧
      c'.scrollTop = c'.scrollHeight layout - c'.clientHeight ∧
      (c'.scrollTop = c'.scrollHeight layout ↔ c'.clientHeight = 0) := by
  have hs : type.data.any isAsciiWhiteSpace = false := by
    rcases ht with h | h <;> subst h <;> decide
  have hno : ¬ (max (layout (c.childNodes ++ [messageElement message type])) c.clientHeight
      ≤ c.clientHeight) := by omega
  have hform : c.appendAndScroll layout (messageElement message type) =
      { childNodes := c.childNodes ++ [messageElement message type]
        scrollTop := max (layout (c.childNodes ++ [messageElement message type]))
          c.clientHeight - c.clientHeight
        clientHeight := c.clientHeight
        scrollContainer := c.scrollContainer
        smoothScroll := c.smoothScroll } := by
    simp only [Container.appendAndScroll, Container.setScrollTop, Container.scrollHeight,
      Container.appendChild, hbox, hinstant, if_neg hno]
    simp
  refine ⟨_, _, addMessage_ok layout p c message type hc hs, rfl, ?_, ?_, ?_, ?_⟩
  · rw [hform]
  · rw [hform]
  · rw [hform]
    simp only [Container.scrollHeight]
  · rw [hform]
    simp only [Container.scrollHeight]
    omega

/-- Witness of amended C8: a bot message on the sample page. -/
theorem addMessage_scrolls_to_end_witness :
    (sampleContainer.clientHeight <
      sampleLayout (sampleContainer.childNodes ++ [messageElement "Hi there" "bot"])) ∧
    ∃ p' c', addMessage sampleLayout samplePage "Hi there" "bot" = .ok p' ∧
      p'.chatMessages = some c' ∧
      c'.childNodes = sampleContainer.childNodes ++ [messageElement "Hi there" "bot"] ∧
      c'.clientHeight = sampleContainer.clientHeight ∧
      c'.scrollTop = c'.scrollHeight sampleLayout - c'.clientHeight ∧
      (c'.scrollTop = c'.scrollHeight sampleLayout ↔ c'.clientHeight = 0) :=
  ⟨by decide, addMessage_scrolls_to_end sampleLayout samplePage sampleContainer "Hi there"
    "bot" rfl (Or.inr rfl) rfl rfl (by decide)⟩

/-- C9, counterexample. `"Hello"` is sent from the widget with an empty
container and the request is answered with the reply `"Hi there"`: the
container then holds the user message alone and no child has the class
`bot-message`. -/
theorem reply_is_not_rendered :
    ∃ w', sendMessage sampleLayout (typeInput emptyWidget "Hello") = .ok w' ∧
      (w'.requests.map fun r => (r.method, r.url)) = [("POST", "/chat")] ∧
      (settle w' 0 sampleReply).page.chatMessages.map Container.childNodes =
        some [messageElement "Hello" "user"] ∧
      ((settle w' 0 sampleReply).page.chatMessages.map fun c =>
        c.childNodes.any fun n => decide ("bot-message" ∈ n.classes)) = some false :=
  ⟨_, sendMessage_nonblank sampleLayout (typeInput emptyWidget "Hello")
    emptyContainer { sampleInput with value := "Hello" } rfl rfl (by decide), rfl, rfl, by decide⟩

/-- C9, amended. A non-blank send registers no reaction on its request: when
the POST to `/chat` is answered, with any response, the page is left as
`sendMessage` left it, and the container holds its former children followed by
the single user message. -/
theorem sendMessage_registers_no_reaction (layout : List Node → Nat) (w : Widget)
    (c : Container) (i : Input) (r : Response) (hc : w.page.chatMessages = some c)
    (hi : w.page.userInput = some i) (hne : trim i.value ≠ "") :
    ∃ w' req, sendMessage layout w = .ok w' ∧
      w'.requests.get? w.requests.length = some req ∧ req.url = "/chat" ∧
      req.reactions = [] ∧
      (settle w' w.requests.length r).page = w'.page ∧
      (settle w' w.requests.length r).page.chatMessages.map Container.childNodes =
        some (c.childNodes ++ [messageElement (trim i.value) "user"]) := by
  refine ⟨_, Request.mk "/chat" "POST" [("Content-Type", "application")] none [],
    sendMessage_nonblank layout w c i hc hi hne, ?_, rfl, rfl, ?_, ?_⟩
  · simp
  · simp [settle]
  · simp [settle, childNodes_appendAndScroll]

/-- Witness of amended C9 on the sample widget and the sample reply. -/
theorem sendMessage_registers_no_reaction_witness :
    ∃ w' req, sendMessage sampleLayout sampleWidget = .ok w' ∧
      w'.requests.get? sampleWidget.requests.length = some req ∧ req.url = "/chat" ∧
      req.reactions = [] ∧
      (settle w' sampleWidget.requests.length sampleReply).page = w'.page ∧
      (settle w' sampleWidget.requests.length sampleReply).page.chatMessages.map
          Container.childNodes =
        some (sampleContainer.childNodes ++ [messageElement (trim sampleInput.value) "user"]) :=
  sendMessage_registers_no_reaction sampleLayout sampleWidget sampleContainer sampleInput
    sampleReply rfl rfl (by decide)

/-- C10, counterexample. On a page that has the container and the send button
but no text input, the handler raises a `TypeError`: it does not complete. -/
theorem domContentLoaded_throws_without_input :
    pageWithoutInput.userInput = none ∧
    domContentLoaded pageWithoutInput = .error .typeError ∧
    ∀ w, domContentLoaded pageWithoutInput ≠ .ok w :=
  ⟨rfl, rfl, fun _ h => by cases h⟩

/-- C10, amended. On a page where the message container or the send control is
absent and the text input is present, the handler completes without an error
and writes nothing: the page is as it was and no request has been issued. -/
theorem domContentLoaded_ok_with_input (p : Page) (i : Input)
    (hi : p.userInput = some i) (_habs : p.chatMessages = none ∨ p.sendBtn = none) :
    ∃ w, domContentLoaded p = .ok w ∧ w.page = p ∧ w.requests = [] ∧
      w.conversationId = i.getAttribute "data-conversation-id" := by
  refine ⟨Widget.mk p (i.getAttribute "data-conversation-id") [], ?_, rfl, rfl, rfl⟩
  simp [domContentLoaded, hi]

/-- Witness of amended C10: a page with the text input only. -/
theorem domContentLoaded_ok_with_input_witness :
    ∃ w, domContentLoaded pageInputOnly = .ok w ∧ w.page = pageInputOnly ∧
      w.requests = [] ∧
      w.conversationId = sampleInput.getAttribute "data-conversation-id" :=
  domContentLoaded_ok_with_input pageInputOnly sampleInput rfl (Or.inl rfl)

end ChatWidget
